import Mathlib

/-!
Verification of the UHCC portal support chatbot against its specification.

The development shallowly embeds the relevant TypeScript source files:
the scraper/cache module (scrapeUrl, getCachedContent, cacheContent,
saveConversation), the chat route (getUserState, the POST handler) and the
analytics route (the POST event handler).  External effects are made
explicit: the key-value store is a function from keys to stored cells, the
HTTP fetch and the LLM completion are oracle fields of a world structure,
and a thrown JavaScript exception is an `Except.error`.  JavaScript strings
are Lean strings, with the helper operations (toLowerCase, includes, slice,
trim, the whitespace-collapsing replace) implemented over `List Char`
exactly as the source uses them on the ASCII texts involved.
-/

/-- Character class of the JavaScript regexp `\s` restricted to ASCII:
space, tab, newline, carriage return, vertical tab, form feed. -/
def jsIsSpace (c : Char) : Bool :=
  c = ' ' || c = '\t' || c = '\n' || c = '\r' || c = '\x0b' || c = '\x0c'

/-- One pass of `text.replace(/\s+/g, " ")`: every maximal run of
whitespace characters becomes a single space.  The boolean flag records
whether the previous character belonged to a whitespace run. -/
def collapseWsAux : Bool → List Char → List Char
  | _, [] => []
  | prev, c :: rest =>
    if jsIsSpace c then
      if prev then collapseWsAux true rest else ' ' :: collapseWsAux true rest
    else c :: collapseWsAux false rest

/-- JavaScript `text.replace(/\s+/g, " ")`. -/
def collapseWs (l : List Char) : List Char := collapseWsAux false l

/-- JavaScript `String.prototype.trim` over a character list. -/
def jsTrim (l : List Char) : List Char :=
  ((l.dropWhile jsIsSpace).reverse.dropWhile jsIsSpace).reverse

/-- The source helper `cleanText` (scraper module):
`text.replace(/\s+/g, " ").replace(/\n/g, " ").trim()`. -/
def cleanText (s : String) : String :=
  String.mk (jsTrim ((collapseWs s.toList).map (fun c => if c = '\n' then ' ' else c)))

/-- JavaScript `s.slice(0, n)` / `s.substring(0, n)` for a nonnegative `n`. -/
def strTake (s : String) (n : Nat) : String := String.mk (s.toList.take n)

/-- JavaScript `s.toLowerCase()` restricted to ASCII letters. -/
def toLowerStr (s : String) : String := String.mk (s.toList.map Char.toLower)

/-- Decides whether `needle` occurs as a contiguous prefix of `hay`. -/
def isPrefixList : List Char → List Char → Bool
  | [], _ => true
  | _ :: _, [] => false
  | a :: as, b :: bs => a = b && isPrefixList as bs

/-- Decides whether `needle` occurs contiguously inside `hay`. -/
def isInfixList (needle : List Char) : List Char → Bool
  | [] => needle.isEmpty
  | h :: t => isPrefixList needle (h :: t) || isInfixList needle t

/-- JavaScript `s.includes(sub)`. -/
def containsSubstr (s sub : String) : Bool := isInfixList sub.toList s.toList

/-- One entry of the conversation history passed to the chat route.  The
source reads `m.content?.toLowerCase() || ""`, so a message may lack a
content field; that is modelled with an `Option`. -/
structure ChatMessage where
  role : String
  content : Option String

/-- The source expression `m.content?.toLowerCase() || ""`. -/
def ChatMessage.contentLower (m : ChatMessage) : String :=
  match m.content with
  | some c => toLowerStr c
  | none => ""

/-- The chat route binding `allMessages`: every message content lowercased
and joined with single spaces. -/
def allMessagesOf (ms : List ChatMessage) : String :=
  String.intercalate " " (ms.map ChatMessage.contentLower)

/-- The chat route binding `lastFewMessages`: the lowercased contents of
the last three messages (`messageHistory.slice(-3)`) joined with spaces. -/
def lastFewOf (ms : List ChatMessage) : String :=
  String.intercalate " " ((ms.map ChatMessage.contentLower).drop (ms.length - 3))

/-- The guard of the first rule of `getUserState`: the recent-window
restart trigger phrases, checked against `lastFewMessages`. -/
def restartTrigger (s : String) : Bool :=
  containsSubstr s "start over" ||
  containsSubstr s "try different email" ||
  containsSubstr s "wrong email" ||
  containsSubstr s "different email" ||
  containsSubstr s "not working" ||
  containsSubstr s "still not getting" ||
  containsSubstr s "not receiving" ||
  containsSubstr s "nothing in spam"

/-- The guard of the completion rule of `getUserState`, checked against the
full history: a success marker together with a completion-context phrase. -/
def completionTrigger (s : String) : Bool :=
  containsSubstr s "successfully" &&
  (containsSubstr s "logged in" ||
   containsSubstr s "reset password" ||
   containsSubstr s "i'm in" ||
   containsSubstr s "it worked")

/-- The chat route state classifier `getUserState` (part_001 lines 109 to
208): an ordered cascade of keyword rules over the lowercased history, the
first match winning.  The restart rule reads only the recent window. -/
def getUserState (messages : List ChatMessage) : String :=
  let allMessages := allMessagesOf messages
  let lastFewMessages := lastFewOf messages
  if restartTrigger lastFewMessages then "restart_needed"
  else if completionTrigger allMessages then "process_complete"
  else if containsSubstr allMessages "password reset" &&
      (containsSubstr allMessages "email" ||
       containsSubstr allMessages "link" ||
       containsSubstr allMessages "got the reset") then "password_reset_in_progress"
  else if containsSubstr allMessages "got my username" ||
      containsSubstr allMessages "have username" ||
      containsSubstr allMessages "received username" ||
      containsSubstr allMessages "found my username" ||
      containsSubstr allMessages "username from email" ||
      containsSubstr allMessages "found it!" then "ready_for_password_reset"
  else if containsSubstr allMessages "username" &&
      (containsSubstr allMessages "sent" ||
       containsSubstr allMessages "check your email" ||
       containsSubstr allMessages "email sent") then "username_email_sent"
  else if containsSubstr allMessages "existing student record" ||
      containsSubstr allMessages "validation error" ||
      containsSubstr allMessages "email exists" ||
      containsSubstr allMessages "email is in the system" ||
      (containsSubstr allMessages "error" && containsSubstr allMessages "good") then
    "email_validated_ready_for_username"
  else if containsSubstr lastFewMessages "new user" ||
      containsSubstr lastFewMessages "right side" ||
      containsSubstr lastFewMessages "checking email" then "checking_email_validation"
  else if containsSubstr allMessages "invalid email" ||
      containsSubstr allMessages "invalid password" ||
      containsSubstr allMessages "login error" ||
      containsSubstr allMessages "can't log in" ||
      containsSubstr allMessages "won't let me" ||
      containsSubstr allMessages "locked out" then "has_login_error"
  else "initial"

/-- C4: a restart trigger phrase in the recent three-message window makes
the classifier return `restart_needed`, regardless of a completion trigger
present anywhere in the full history: the first rule of the cascade reads
only the recent window and short-circuits every later rule. -/
theorem c4_restart_override (messages : List ChatMessage)
    (hrestart : restartTrigger (lastFewOf messages) = true)
    (_hcomplete : completionTrigger (allMessagesOf messages) = true) :
    getUserState messages = "restart_needed" := by
  unfold getUserState
  simp [hrestart]

/-- Witness for C4: a five-message history whose opening turn reports
success ("successfully logged in", "it worked") while the recent window
contains the restart trigger "not working"; the classifier answers
`restart_needed`. -/
theorem c4_restart_override_witness :
    getUserState
      [⟨"user", some "I successfully logged in yesterday and it worked"⟩,
       ⟨"assistant", some "Great to hear!"⟩,
       ⟨"user", some "Today I cannot access my account"⟩,
       ⟨"assistant", some "Let us check your email first."⟩,
       ⟨"user", some "That is not working"⟩] = "restart_needed" :=
  c4_restart_override _ (by decide) (by decide)

/-- A JSON value as the cache and the analytics code exchange them:
null, booleans, nonnegative numbers (the only numbers this code writes),
strings and objects as ordered field lists. -/
inductive JsonVal where
  | jnull : JsonVal
  | jbool : Bool → JsonVal
  | jnum : Nat → JsonVal
  | jstr : String → JsonVal
  | jobj : List (String × JsonVal) → JsonVal

/-- Field lookup on a JSON object, first occurrence wins; property access
on a non-object JavaScript value other than null yields undefined, which is
modelled by `none`. -/
def lookupField : List (String × JsonVal) → String → Option JsonVal
  | [], _ => none
  | (k, v) :: rest, key => if k = key then some v else lookupField rest key

/-- JavaScript property read `v[key]` for a defined non-null `v`. -/
def getField (v : JsonVal) (key : String) : Option JsonVal :=
  match v with
  | .jobj fields => lookupField fields key
  | _ => none

/-- Hexadecimal digit for the `\u00XX` escapes of JSON.stringify. -/
def hexDigit (n : Nat) : Char :=
  if n < 10 then Char.ofNat (48 + n) else Char.ofNat (87 + n)

/-- JSON.stringify escaping of one character of a string value. -/
def escapeChar (c : Char) : String :=
  if c = '"' then "\\\""
  else if c = '\\' then "\\\\"
  else if c = '\n' then "\\n"
  else if c = '\r' then "\\r"
  else if c = '\t' then "\\t"
  else if c = '\x08' then "\\b"
  else if c = '\x0c' then "\\f"
  else if c.toNat < 32 then
    "\\u00" ++ String.mk [hexDigit (c.toNat / 16), hexDigit (c.toNat % 16)]
  else String.mk [c]

/-- Concatenation of the images of a character list under `f`. -/
def concatMap (f : Char → String) : List Char → String
  | [] => ""
  | c :: t => f c ++ concatMap f t

/-- JSON string literal for `s`. -/
def quoteStr (s : String) : String :=
  "\"" ++ concatMap escapeChar s.toList ++ "\""

mutual

/-- JSON.stringify for the values above (keys in object insertion order,
as V8 serializes them). -/
def jsonStringify : JsonVal → String
  | .jnull => "null"
  | .jbool true => "true"
  | .jbool false => "false"
  | .jnum n => toString n
  | .jstr s => quoteStr s
  | .jobj fields => "\x7b" ++ stringifyFields fields ++ "\x7d"

/-- Comma-separated `"key":value` pieces of a serialized object. -/
def stringifyFields : List (String × JsonVal) → String
  | [] => ""
  | [(k, v)] => quoteStr k ++ ":" ++ jsonStringify v
  | (k, v) :: rest => quoteStr k ++ ":" ++ jsonStringify v ++ "," ++ stringifyFields rest

end

/-- Nested headings record of the scraper result. -/
structure Headings where
  h1 : String
  h2 : String

/-- The `ScrapedContent` interface of the scraper module.  `error` is
null or a string; `cachedAt` is the optional timestamp stamped by
`cacheContent`. -/
structure ScrapedContent where
  url : String
  title : String
  headings : Headings
  metaDescription : String
  content : String
  error : Option String
  cachedAt : Option Nat

/-- The JSON object a `ScrapedContent` record serializes to, keys in the
property order of the source object literal, `cachedAt` appended last
because `cacheContent` assigns it after construction. -/
def ScrapedContent.toJson (c : ScrapedContent) : JsonVal :=
  .jobj ([("url", .jstr c.url), ("title", .jstr c.title),
          ("headings", .jobj [("h1", .jstr c.headings.h1), ("h2", .jstr c.headings.h2)]),
          ("metaDescription", .jstr c.metaDescription),
          ("content", .jstr c.content),
          ("error", match c.error with | none => .jnull | some e => .jstr e)]
         ++ (match c.cachedAt with | none => [] | some t => [("cachedAt", .jnum t)]))

/-- Whether field `key` of `v` holds a JSON string:
`typeof v[key] === "string"`. -/
def isStringField (v : JsonVal) (key : String) : Bool :=
  match getField v key with
  | some (.jstr _) => true
  | _ => false

/-- The source guard `isValidScrapedContent(data)` as JavaScript evaluates
it on an arbitrary parsed value.  The conjunction short-circuits, and the
subterm `data.headings.h1` throws a TypeError when `data` itself or
`data.headings` is null or undefined; a throw is an `Except.error`. -/
def isValidScrapedContentJs (data : JsonVal) : Except Unit Bool :=
  match data with
  | .jnull => .error ()
  | _ =>
    if !(isStringField data "url") then .ok false
    else if !(isStringField data "title") then .ok false
    else
      match getField data "headings" with
      | none => .error ()
      | some .jnull => .error ()
      | some h =>
        if !(isStringField h "h1") then .ok false
        else if !(isStringField h "h2") then .ok false
        else if !(isStringField data "metaDescription") then .ok false
        else if !(isStringField data "content") then .ok false
        else
          match getField data "error" with
          | some .jnull => .ok true
          | some (.jstr _) => .ok true
          | _ => .ok false

/-- Boolean form of the validator: true exactly when validation runs to
completion and accepts. -/
def validatesOk (v : JsonVal) : Bool :=
  match isValidScrapedContentJs v with
  | .ok true => true
  | _ => false

/-- String content of an optional JSON field, defaulting like the untyped
source does once validation has confirmed the field is a string. -/
def asString (v : Option JsonVal) : String :=
  match v with
  | some (.jstr s) => s
  | _ => ""

/-- Read of the nested field `v[key][key2]`. -/
def subField (v : JsonVal) (key key2 : String) : Option JsonVal :=
  (getField v key).bind (fun h => getField h key2)

/-- The typed record the cache read hands back to `scrapeUrl` when the
parsed JSON has passed `isValidScrapedContent`; on a validated object it
reproduces every declared field. -/
def decodeScraped (v : JsonVal) : ScrapedContent :=
  { url := asString (getField v "url"),
    title := asString (getField v "title"),
    headings := { h1 := asString (subField v "headings" "h1"),
                  h2 := asString (subField v "headings" "h2") },
    metaDescription := asString (getField v "metaDescription"),
    content := asString (getField v "content"),
    error := match getField v "error" with | some (.jstr e) => some e | _ => none,
    cachedAt := match getField v "cachedAt" with | some (.jnum n) => some n | _ => none }

/-- One cell of the key-value store.  `rstr s p` is a raw string `s` whose
JSON.parse outcome is `p` (`none` when parsing throws); the pair is the
description the world gives of the entry, and the only writer,
`cacheContent`, always stores a string paired with the value it was
serialized from.  `rjson v` is a value the store client returns already
deserialized. -/
inductive RedisVal where
  | rstr : String → Option JsonVal → RedisVal
  | rjson : JsonVal → RedisVal

/-- JavaScript falsiness of a value read back from the store: the empty
string, null, false and zero fail the `if (!cached)` test. -/
def RedisVal.isFalsy : RedisVal → Bool
  | .rstr s _ => s = ""
  | .rjson .jnull => true
  | .rjson (.jbool false) => true
  | .rjson (.jnum 0) => true
  | .rjson (.jstr "") => true
  | .rjson _ => false

/-- Deserialized view of a cell: the branch `typeof cached === "string" ?
JSON.parse(cached) : cached`, `none` meaning JSON.parse threw. -/
def RedisVal.parsedOf : RedisVal → Option JsonVal
  | .rstr _ p => p
  | .rjson v => some v

/-- The key-value store, one optional cell per key. -/
def Store := String → Option RedisVal

/-- Store after `redis.set key v`. -/
def Store.set (st : Store) (key : String) (v : RedisVal) : Store :=
  fun k => if k = key then some v else st k

/-- Store after `redis.del key`. -/
def Store.del (st : Store) (key : String) : Store :=
  fun k => if k = key then none else st k

/-- The cache payload cap `MAX_CACHE_SIZE` of the scraper module. -/
def MAX_CACHE_SIZE : Nat := 1024000

/-- The source `getCacheKey`: the URL truncated to its first 200
characters behind the `scrape:` namespace. -/
def getCacheKey (url : String) : String := "scrape:" ++ strTake url 200

/-- The source `getCachedContent` (scraper module lines 154 to 193),
returning the value handed to the caller and the store as the call leaves
it.  A falsy cell fails `if (!cached)` and is reported as a miss; a parse
failure deletes the entry; a validation failure deletes the entry; a
TypeError thrown inside the validator reaches the catch-all, which
returns null without touching the entry. -/
def getCachedContent (store : Store) (url : String) : Option ScrapedContent × Store :=
  let cacheKey := getCacheKey url
  match store cacheKey with
  | none => (none, store)
  | some cached =>
    if cached.isFalsy then (none, store)
    else
      match cached.parsedOf with
      | none => (none, store.del cacheKey)
      | some parsed =>
        match isValidScrapedContentJs parsed with
        | .ok true => (some (decodeScraped parsed), store)
        | .ok false => (none, store.del cacheKey)
        | .error _ => (none, store)

/-- The source `cacheContent` (scraper module lines 195 to 224): stamp
`cachedAt`, validate, serialize, refuse silently past the payload cap,
otherwise overwrite the entry for the key. -/
def cacheContent (store : Store) (now : Nat) (url : String) (content : ScrapedContent) : Store :=
  let cacheKey := getCacheKey url
  let stamped := { content with cachedAt := some now }
  match isValidScrapedContentJs stamped.toJson with
  | .ok true =>
    let serialized := jsonStringify stamped.toJson
    if serialized.length > MAX_CACHE_SIZE then store
    else store.set cacheKey (.rstr serialized (some stamped.toJson))
  | _ => store

/-- Validation accepts the serialization of every typed record: the
record always carries all declared fields with string values and a
null-or-string error. -/
theorem validates_toJson (c : ScrapedContent) : validatesOk c.toJson = true := by
  rcases c with ⟨u, t, ⟨a, b⟩, m, co, e, ca⟩
  cases e <;> cases ca <;> rfl

/-- Decoding inverts serialization on every typed record. -/
theorem decode_toJson (c : ScrapedContent) : decodeScraped c.toJson = c := by
  rcases c with ⟨u, t, ⟨a, b⟩, m, co, e, ca⟩
  cases e <;> cases ca <;> rfl

/-- The validator, run to completion, accepts the serialization of every
typed record. -/
theorem isValid_toJson (c : ScrapedContent) :
    isValidScrapedContentJs c.toJson = .ok true := by
  rcases c with ⟨u, t, ⟨a, b⟩, m, co, e, ca⟩
  cases e <;> cases ca <;> rfl

/-- Falsiness of a raw-string cell is emptiness of the string. -/
theorem isFalsy_rstr (s : String) (p : Option JsonVal) :
    RedisVal.isFalsy (.rstr s p) = decide (s = "") := rfl

/-- A serialized object is never the empty string: it starts with an
opening brace. -/
theorem jsonStringify_jobj_ne_empty (l : List (String × JsonVal)) :
    jsonStringify (.jobj l) ≠ "" := by
  intro h
  have hlen : (jsonStringify (.jobj l)).length = 0 := by rw [h]; rfl
  rw [jsonStringify] at hlen
  simp [String.length_append] at hlen
  exact absurd hlen.1.1 (by decide)

/-- Reading a key with no cell is a plain miss that leaves the store
unchanged. -/
theorem getCachedContent_none (store : Store) (url : String)
    (h : store (getCacheKey url) = none) :
    getCachedContent store url = (none, store) := by
  simp only [getCachedContent, h]

/-- Reading the key just written returns the written cell. -/
theorem Store.set_self (st : Store) (key : String) (v : RedisVal) :
    st.set key v key = some v := by
  simp [Store.set]

/-- Reading back a well-formed serialized cell returns the decoded record
and leaves the store unchanged. -/
theorem getCachedContent_set_good (store : Store) (url : String) (s : String) (v : JsonVal)
    (hs : s ≠ "") (hv : isValidScrapedContentJs v = .ok true) :
    getCachedContent (store.set (getCacheKey url) (.rstr s (some v))) url
      = (some (decodeScraped v), store.set (getCacheKey url) (.rstr s (some v))) := by
  have hfal : (RedisVal.rstr s (some v)).isFalsy = false := by
    rw [isFalsy_rstr]; exact decide_eq_false hs
  simp only [getCachedContent, Store.set_self, hfal, RedisVal.parsedOf, hv]
  simp

/-- Below the payload cap, `cacheContent` overwrites the entry for the key
with the stamped serialized record. -/
theorem cacheContent_eq_set (store : Store) (now : Nat) (url : String) (c : ScrapedContent)
    (hsize : ¬ (jsonStringify (ScrapedContent.toJson { c with cachedAt := some now })).length > MAX_CACHE_SIZE) :
    cacheContent store now url c =
      store.set (getCacheKey url)
        (.rstr (jsonStringify (ScrapedContent.toJson { c with cachedAt := some now }))
           (some (ScrapedContent.toJson { c with cachedAt := some now }))) := by
  simp only [cacheContent, isValid_toJson]
  rw [if_neg hsize]

/-- Past the payload cap, `cacheContent` refuses to store and returns the
store unchanged. -/
theorem cacheContent_refuses (store : Store) (now : Nat) (url : String) (c : ScrapedContent)
    (hsize : MAX_CACHE_SIZE < (jsonStringify (ScrapedContent.toJson { c with cachedAt := some now })).length) :
    cacheContent store now url c = store := by
  simp only [cacheContent, isValid_toJson]
  rw [if_pos hsize]

/-- C3: the caching round-trip.  Storing a page whose serialized form
(cachedAt stamped) is at most the payload cap and reading the same URL
back returns a record with the identical content, title and headings;
storing a page whose serialized form exceeds the cap leaves the store
untouched, so reading a previously absent key stays a miss. -/
theorem c3_cache_roundtrip :
    (∀ (store : Store) (now : Nat) (url : String) (c : ScrapedContent),
        (jsonStringify (ScrapedContent.toJson { c with cachedAt := some now })).length ≤ MAX_CACHE_SIZE →
        ∃ r, (getCachedContent (cacheContent store now url c) url).1 = some r ∧
          r.content = c.content ∧ r.title = c.title ∧ r.headings = c.headings)
  ∧ (∀ (store : Store) (now : Nat) (url : String) (c : ScrapedContent),
        MAX_CACHE_SIZE < (jsonStringify (ScrapedContent.toJson { c with cachedAt := some now })).length →
        store (getCacheKey url) = none →
        (getCachedContent (cacheContent store now url c) url).1 = none) := by
  constructor
  · intro store now url c hsize
    have hne : jsonStringify (ScrapedContent.toJson { c with cachedAt := some now }) ≠ "" := by
      rw [ScrapedContent.toJson]; exact jsonStringify_jobj_ne_empty _
    have hsize' : ¬ (jsonStringify (ScrapedContent.toJson { c with cachedAt := some now })).length > MAX_CACHE_SIZE := by omega
    refine ⟨{ c with cachedAt := some now }, ?_, rfl, rfl, rfl⟩
    rw [cacheContent_eq_set store now url c hsize',
      getCachedContent_set_good store url _ _ hne (isValid_toJson _), decode_toJson]
  · intro store now url c hsize hnone
    rw [cacheContent_refuses store now url c hsize, getCachedContent_none store url hnone]

/-- Length of a string built from an explicit character list. -/
theorem length_mk (l : List Char) : (String.mk l).length = l.length := rfl

/-- Every escaped character occupies at least one output character. -/
theorem one_le_escapeChar_length (c : Char) : 1 ≤ (escapeChar c).length := by
  unfold escapeChar
  split_ifs
  · decide
  · decide
  · decide
  · decide
  · decide
  · decide
  · decide
  · rw [String.length_append]
    have h2 : (String.mk [hexDigit (c.toNat / 16), hexDigit (c.toNat % 16)]).length = 2 := rfl
    omega
  · have h1 : (String.mk [c]).length = 1 := rfl
    omega

/-- The escaped body of a JSON string literal is at least as long as the
source character list. -/
theorem le_concatMap_escape_length (l : List Char) :
    l.length ≤ (concatMap escapeChar l).length := by
  induction l with
  | nil => exact Nat.le_refl 0
  | cons c t ih =>
    rw [concatMap, String.length_append, List.length_cons]
    have := one_le_escapeChar_length c
    omega

/-- The serialized record is at least as long as its content field: the
serialization embeds the escaped content string. -/
theorem content_le_stringify_length (c : ScrapedContent) :
    c.content.length ≤ (jsonStringify c.toJson).length := by
  rcases c with ⟨u, t, ⟨a, b⟩, m, co, e, ca⟩
  have hco : co.toList.length = co.length := rfl
  have hcm := le_concatMap_escape_length co.toList
  cases e <;> cases ca <;>
    simp only [ScrapedContent.toJson, List.nil_append, List.cons_append,
      jsonStringify, stringifyFields, quoteStr, String.length_append] <;>
    omega

/-- Concrete page whose content alone exceeds the payload cap. -/
def c3BigPage : ScrapedContent :=
  ⟨"http://b.example", "T", ⟨"H1", "H2"⟩, "M",
   String.mk (List.replicate 1030000 'a'), none, none⟩

set_option maxRecDepth 4000 in
/-- Witness for C3: a concrete small page survives the round-trip, and a
page padded past the payload cap is refused and stays unretrievable. -/
theorem c3_cache_roundtrip_witness :
    (∃ r, (getCachedContent
            (cacheContent (fun _ => none) 7 "http://a.example"
              ⟨"http://a.example", "T", ⟨"H1", "H2"⟩, "M", "body text", none, none⟩)
            "http://a.example").1 = some r ∧
        r.content = "body text" ∧ r.title = "T" ∧ r.headings = ⟨"H1", "H2"⟩) ∧
    (getCachedContent
        (cacheContent (fun _ => none) 7 "http://b.example" c3BigPage)
        "http://b.example").1 = none := by
  constructor
  · exact c3_cache_roundtrip.1 _ 7 _ _ (by decide)
  · refine c3_cache_roundtrip.2 _ 7 _ _ ?_ rfl
    have hbound := content_le_stringify_length { c3BigPage with cachedAt := some 7 }
    have hc : ({ c3BigPage with cachedAt := some 7 }).content
        = String.mk (List.replicate 1030000 'a') := rfl
    rw [hc, length_mk, List.length_replicate] at hbound
    exact lt_of_lt_of_le (by norm_num [MAX_CACHE_SIZE]) hbound


/-- Store holding one corrupt entry whose raw value is the empty string:
JSON.parse of it throws, but the value is also falsy. -/
def c6FalsyStore : Store :=
  fun k => if k = getCacheKey "https://ce.uhcc.hawaii.edu/portal" then some (.rstr "" none) else none

/-- Counterexample to C6 as stated: the entry under the key is a stored
empty string, whose JSON deserialization fails; `get` does return absent,
but the falsy guard `if (!cached)` fires before the parse, so the corrupt
entry is not deleted and is still present afterwards. -/
theorem c6_corrupt_purge_counterexample :
    (getCachedContent c6FalsyStore "https://ce.uhcc.hawaii.edu/portal").1 = none ∧
    (getCachedContent c6FalsyStore "https://ce.uhcc.hawaii.edu/portal").2
      (getCacheKey "https://ce.uhcc.hawaii.edu/portal") = some (.rstr "" none) := by
  constructor <;> rfl

/-- C6 amended: `get` never serves a record that fails the structural
validator; an entry whose non-empty raw string fails JSON deserialization
is deleted, and an entry whose parsed value is rejected by the validator
is deleted — but a falsy stored value (such as the empty string) is
treated as a plain miss and left in place, and an entry on which the
validator itself throws is left in place with the error swallowed. -/
theorem c6_corrupt_purge_amended :
    (∀ (store : Store) (url : String) (r : ScrapedContent),
        (getCachedContent store url).1 = some r → validatesOk r.toJson = true)
  ∧ (∀ (store : Store) (url : String) (s : String),
        store (getCacheKey url) = some (.rstr s none) → s ≠ "" →
        getCachedContent store url = (none, store.del (getCacheKey url)))
  ∧ (∀ (store : Store) (url : String) (cell : RedisVal) (v : JsonVal),
        store (getCacheKey url) = some cell → cell.isFalsy = false →
        cell.parsedOf = some v → isValidScrapedContentJs v = .ok false →
        getCachedContent store url = (none, store.del (getCacheKey url))) := by
  refine ⟨fun _ _ r _ => validates_toJson r, ?_, ?_⟩
  · intro store url s hcell hs
    have hfal : (RedisVal.rstr s none).isFalsy = false := by
      rw [isFalsy_rstr]; exact decide_eq_false hs
    simp only [getCachedContent, hcell, hfal, RedisVal.parsedOf]
    simp
  · intro store url cell v hcell hfal hparsed hinvalid
    simp only [getCachedContent, hcell, hfal, hparsed, hinvalid]
    simp

/-- Store holding a non-empty raw string that fails JSON deserialization. -/
def c6GarbageStore : Store :=
  fun k => if k = getCacheKey "http://a.example" then some (.rstr "not json" none) else none

/-- Store holding a deserialized value the validator rejects. -/
def c6InvalidStore : Store :=
  fun k => if k = getCacheKey "http://b.example" then some (.rjson (.jstr "junk")) else none

/-- Witness for the amended C6: a non-empty unparsable entry is deleted,
and a parsed but structurally invalid entry is deleted. -/
theorem c6_corrupt_purge_amended_witness :
    getCachedContent c6GarbageStore "http://a.example"
      = (none, c6GarbageStore.del (getCacheKey "http://a.example")) ∧
    getCachedContent c6InvalidStore "http://b.example"
      = (none, c6InvalidStore.del (getCacheKey "http://b.example")) :=
  ⟨c6_corrupt_purge_amended.2.1 c6GarbageStore "http://a.example" "not json" rfl (by decide),
   c6_corrupt_purge_amended.2.2 c6InvalidStore "http://b.example"
     (.rjson (.jstr "junk")) (.jstr "junk") rfl rfl rfl rfl⟩

/-- Texts the cheerio selections of `scrapeUrl` extract from the fetched
document, one field per selection in source order.  The HTML parsing
itself is out of scope (an opaque text extraction), so the parsed document
is represented by what each selection yields. -/
structure CheerioDoc where
  title : String
  metaDescription : String
  h1 : String
  h2 : String
  articleText : String
  mainText : String
  contentText : String
  paragraphs : String
  listItems : String

/-- External state and effects one `scrapeUrl` call can observe: the
key-value store, the outcome of the HTTP GET (an `Except.error` models a
thrown network or parse exception) and the current time used for the
`cachedAt` stamp. -/
structure ScrapeWorld where
  store : Store
  fetch : Except Unit CheerioDoc
  now : Nat

/-- The record the catch branch of `scrapeUrl` returns: every text field
empty and the fixed error string. -/
def errorScrapeResult (url : String) : ScrapedContent :=
  { url := url, title := "", headings := ⟨"", ""⟩, metaDescription := "",
    content := "", error := some "Failed to scrape URL", cachedAt := none }

/-- The `finalResponse` record the fresh-scrape path of `scrapeUrl`
builds: the extracted texts joined in priority order, whitespace
normalized, truncated to 40000 characters, every displayed field cleaned
individually. -/
def finalResponseOf (doc : CheerioDoc) (url : String) : ScrapedContent :=
  { url := url, title := cleanText doc.title,
    headings := ⟨cleanText doc.h1, cleanText doc.h2⟩,
    metaDescription := cleanText doc.metaDescription,
    content := strTake (cleanText (String.intercalate " "
      [doc.title, doc.metaDescription, doc.h1, doc.h2, doc.articleText,
       doc.mainText, doc.contentText, doc.paragraphs, doc.listItems])) 40000,
    error := none, cachedAt := none }

/-- The source `scrapeUrl` (scraper module lines 30 to 122): consult the
cache; on a miss fetch and extract, build `finalResponse`, cache and
return it.  Any exception in the try block lands in the catch branch,
which returns the error record.  The source mutates
`finalResponse.cachedAt` inside `cacheContent` before returning it, so the
caller receives the stamped record. -/
def scrapeUrl (w : ScrapeWorld) (url : String) : ScrapedContent × Store :=
  match getCachedContent w.store url with
  | (some cached, store2) => (cached, store2)
  | (none, store2) =>
    match w.fetch with
    | .error _ => (errorScrapeResult url, store2)
    | .ok doc =>
      ({ finalResponseOf doc url with cachedAt := some w.now },
       cacheContent store2 w.now url (finalResponseOf doc url))

/-- Characterization of the fresh-scrape path. -/
theorem scrapeUrl_fresh (w : ScrapeWorld) (url : String) (doc : CheerioDoc)
    (hmiss : w.store (getCacheKey url) = none) (hfetch : w.fetch = .ok doc) :
    scrapeUrl w url =
      ({ finalResponseOf doc url with cachedAt := some w.now },
       cacheContent w.store w.now url (finalResponseOf doc url)) := by
  simp only [scrapeUrl, getCachedContent_none w.store url hmiss, hfetch]

/-- Characterization of the cache-hit path. -/
theorem scrapeUrl_hit (w : ScrapeWorld) (url : String) (r : ScrapedContent) (st : Store)
    (h : getCachedContent w.store url = (some r, st)) :
    scrapeUrl w url = (r, st) := by
  simp only [scrapeUrl, h]

/-- C5: `scrapeUrl` is total over every world and URL — the try/catch
around its body keeps any exception from reaching the caller — and the
record it returns always carries every declared field with a string value
and a null-or-string error, which the structural validator of the source
confirms on its serialization. -/
theorem c5_scrape_total_valid (w : ScrapeWorld) (url : String) :
    validatesOk (ScrapedContent.toJson (scrapeUrl w url).1) = true := by
  rcases hget : getCachedContent w.store url with ⟨o, store2⟩
  cases o with
  | some cached => simp only [scrapeUrl, hget]; exact validates_toJson cached
  | none =>
    cases hfetch : w.fetch with
    | error e => simp only [scrapeUrl, hget, hfetch]; exact validates_toJson _
    | ok doc => simp only [scrapeUrl, hget, hfetch]; exact validates_toJson _

/-- Dropping a matching initial segment never lengthens the list. -/
theorem dropWhile_length_le (p : Char → Bool) (l : List Char) :
    (l.dropWhile p).length ≤ l.length := by
  induction l with
  | nil => simp
  | cons c t ih =>
    rw [List.dropWhile_cons]
    split_ifs
    · exact Nat.le_succ_of_le ih
    · exact Nat.le_refl _

/-- Collapsing whitespace runs never lengthens the text. -/
theorem collapseWsAux_length_le (fl : Bool) (l : List Char) :
    (collapseWsAux fl l).length ≤ l.length := by
  induction l generalizing fl with
  | nil => simp [collapseWsAux]
  | cons c t ih =>
    simp only [collapseWsAux]
    split_ifs
    · exact Nat.le_succ_of_le (ih true)
    · rw [List.length_cons, List.length_cons]
      exact Nat.succ_le_succ (ih true)
    · rw [List.length_cons, List.length_cons]
      exact Nat.succ_le_succ (ih false)

/-- Trimming never lengthens the text. -/
theorem jsTrim_length_le (l : List Char) : (jsTrim l).length ≤ l.length := by
  have h1 := dropWhile_length_le jsIsSpace l
  have h2 := dropWhile_length_le jsIsSpace ((l.dropWhile jsIsSpace).reverse)
  simp only [jsTrim, List.length_reverse]
  simp only [List.length_reverse] at h2
  omega

/-- Whitespace normalization never lengthens the text. -/
theorem cleanText_length_le (s : String) : (cleanText s).length ≤ s.length := by
  unfold cleanText
  rw [length_mk]
  calc (jsTrim ((collapseWs s.toList).map (fun c => if c = '\n' then ' ' else c))).length
      ≤ ((collapseWs s.toList).map (fun c => if c = '\n' then ' ' else c)).length :=
        jsTrim_length_le _
    _ = (collapseWs s.toList).length := List.length_map _ _
    _ ≤ s.toList.length := collapseWsAux_length_le false _
    _ = s.length := rfl

/-- Truncation bounds the length by the cut point. -/
theorem strTake_length_le (s : String) (n : Nat) : (strTake s n).length ≤ n := by
  rw [strTake, length_mk, List.length_take]
  exact min_le_left _ _

/-- When the key was previously absent, any raw-string cell found under it
after `cacheContent` carries the serialization of the stamped record. -/
theorem cacheContent_cell (store : Store) (now : Nat) (url : String) (c : ScrapedContent)
    (hkey : store (getCacheKey url) = none) :
    ∀ (s : String) (p : Option JsonVal),
      (cacheContent store now url c) (getCacheKey url) = some (.rstr s p) →
      p = some (ScrapedContent.toJson { c with cachedAt := some now }) := by
  intro s p hcell
  by_cases hsz : (jsonStringify (ScrapedContent.toJson { c with cachedAt := some now })).length > MAX_CACHE_SIZE
  · rw [cacheContent_refuses store now url c hsz, hkey] at hcell
    cases hcell
  · rw [cacheContent_eq_set store now url c hsz, Store.set_self] at hcell
    injection hcell with h
    injection h with h1 h2
    exact h2.symm

/-- C7: on a fresh successful scrape the returned content is at most
40000 characters, the bound is stable under renormalization, and the cell
written to the cache stores exactly the serialized returned record, so the
cached content obeys the same bound. -/
theorem c7_content_cap (w : ScrapeWorld) (url : String) (doc : CheerioDoc)
    (hmiss : w.store (getCacheKey url) = none)
    (hfetch : w.fetch = .ok doc) :
    (scrapeUrl w url).1.content.length ≤ 40000 ∧
    (cleanText (scrapeUrl w url).1.content).length ≤ 40000 ∧
    ∀ (s : String) (p : Option JsonVal),
      (scrapeUrl w url).2 (getCacheKey url) = some (.rstr s p) →
      p = some (ScrapedContent.toJson (scrapeUrl w url).1) := by
  have h1 : (scrapeUrl w url).1 = { finalResponseOf doc url with cachedAt := some w.now } := by
    rw [scrapeUrl_fresh w url doc hmiss hfetch]
  have h2 : (scrapeUrl w url).2 = cacheContent w.store w.now url (finalResponseOf doc url) := by
    rw [scrapeUrl_fresh w url doc hmiss hfetch]
  rw [h1, h2]
  refine ⟨strTake_length_le _ _,
    le_trans (cleanText_length_le _) (strTake_length_le _ _), ?_⟩
  exact cacheContent_cell w.store w.now url (finalResponseOf doc url) hmiss

/-- Witness for C7: a concrete fresh scrape of a small document satisfies
the bound and the cached-copy property. -/
theorem c7_content_cap_witness :
    ((scrapeUrl ⟨fun _ => none, .ok ⟨"A Title", "Meta", "H1 text", "H2 text",
        "article", "main", "content", "paragraphs", "items"⟩, 3⟩
        "http://c.example").1.content.length ≤ 40000) ∧
    ((cleanText (scrapeUrl ⟨fun _ => none, .ok ⟨"A Title", "Meta", "H1 text", "H2 text",
        "article", "main", "content", "paragraphs", "items"⟩, 3⟩
        "http://c.example").1.content).length ≤ 40000) ∧
    ∀ (s : String) (p : Option JsonVal),
      (scrapeUrl ⟨fun _ => none, .ok ⟨"A Title", "Meta", "H1 text", "H2 text",
        "article", "main", "content", "paragraphs", "items"⟩, 3⟩
        "http://c.example").2 (getCacheKey "http://c.example") = some (.rstr s p) →
      p = some (ScrapedContent.toJson
        (scrapeUrl ⟨fun _ => none, .ok ⟨"A Title", "Meta", "H1 text", "H2 text",
          "article", "main", "content", "paragraphs", "items"⟩, 3⟩
          "http://c.example").1) :=
  c7_content_cap _ "http://c.example" _ rfl rfl

/-- Equal 200-character prefixes give equal cache keys. -/
theorem getCacheKey_eq_of_prefix200 (url1 url2 : String)
    (hpre : strTake url1 200 = strTake url2 200) :
    getCacheKey url1 = getCacheKey url2 := by
  rw [getCacheKey, getCacheKey, hpre]

/-- C10: the cache key keeps only the first 200 characters of the URL, so
after a successful fresh scrape of `url1` is cached, scraping any `url2`
that shares those 200 characters returns the cached record of `url1`
verbatim — its `url` field still naming `url1` — for every fetch oracle
and timestamp, that is, without any network access. -/
theorem c10_truncated_key_collision (w : ScrapeWorld) (url1 url2 : String) (doc : CheerioDoc)
    (hpre : strTake url1 200 = strTake url2 200)
    (hmiss : w.store (getCacheKey url1) = none)
    (hfetch : w.fetch = .ok doc)
    (hsize : ¬ (jsonStringify (ScrapedContent.toJson (scrapeUrl w url1).1)).length > MAX_CACHE_SIZE) :
    (∀ (fetch2 : Except Unit CheerioDoc) (now2 : Nat),
       (scrapeUrl ⟨(scrapeUrl w url1).2, fetch2, now2⟩ url2).1 = (scrapeUrl w url1).1) ∧
    (scrapeUrl w url1).1.url = url1 := by
  have hkey := getCacheKey_eq_of_prefix200 url1 url2 hpre
  have h1 : (scrapeUrl w url1).1 = { finalResponseOf doc url1 with cachedAt := some w.now } := by
    rw [scrapeUrl_fresh w url1 doc hmiss hfetch]
  have h2 : (scrapeUrl w url1).2 = cacheContent w.store w.now url1 (finalResponseOf doc url1) := by
    rw [scrapeUrl_fresh w url1 doc hmiss hfetch]
  rw [h1] at hsize
  rw [h1, h2]
  constructor
  · intro fetch2 now2
    rw [cacheContent_eq_set w.store w.now url1 _ hsize]
    have hne : jsonStringify (ScrapedContent.toJson
        { finalResponseOf doc url1 with cachedAt := some w.now }) ≠ "" := by
      rw [ScrapedContent.toJson]; exact jsonStringify_jobj_ne_empty _
    rw [hkey]
    rw [scrapeUrl_hit _ url2 _ _
      (getCachedContent_set_good w.store url2 _ _ hne (isValid_toJson _)), decode_toJson]
  · rfl

/-- Shared 200-character prefix for the C10 witness URLs. -/
def c10Base : String := String.mk (List.replicate 200 'u')

/-- First witness URL. -/
def c10Url1 : String := c10Base ++ "/one"

/-- Second witness URL, distinct from the first beyond character 200. -/
def c10Url2 : String := c10Base ++ "/two"

/-- Small document for the C10 witness scrape. -/
def c10Doc : CheerioDoc := ⟨"T", "M", "H1", "H2", "A", "Mn", "C", "P", "L"⟩

/-- World for the C10 witness: empty store, successful fetch. -/
def c10World : ScrapeWorld := ⟨fun _ => none, .ok c10Doc, 5⟩

set_option maxRecDepth 8000 in
/-- Witness for C10: after scraping the first URL, scraping the second
URL against a failing fetch oracle still returns the first record, whose
url field names the first URL. -/
theorem c10_truncated_key_collision_witness :
    (scrapeUrl ⟨(scrapeUrl c10World c10Url1).2, .error (), 9⟩ c10Url2).1
      = (scrapeUrl c10World c10Url1).1 ∧
    (scrapeUrl c10World c10Url1).1.url = c10Url1 :=
  ⟨(c10_truncated_key_collision c10World c10Url1 c10Url2 c10Doc
      (by decide) rfl rfl (by decide)).1 (.error ()) 9,
   (c10_truncated_key_collision c10World c10Url1 c10Url2 c10Doc
      (by decide) rfl rfl (by decide)).2⟩

/-- The contact block `UHCC_PORTAL_KNOWLEDGE.contact_info.formatted`. -/
def contactInfoFormatted : String :=
  "📞 808-845-9129\n📧 help@hawaii.edu\n🕒 Mon-Fri 8AM-4:30PM"

/-- The chat route `getResponseForState` (part_001 lines 470 to 546): one
fixed canned reply per classifier state, used when the LLM completion is
empty or missing. -/
def getResponseForState (state : String) : String :=
  if state = "initial" then
    "Hey there! I'm here to help you get back into your UHCC continuing education account.\n\nWhat's happening when you try to log in? Are you getting some kind of error message?\n\n**Quick tip:** If you're getting a login error, we'll start by checking if your email's in the system using the \"I am a new user\" section on the <a href=\"https://ce.uhcc.hawaii.edu/portal/logon.do?method=load\" target=\"_blank\">portal login page</a>."
  else if state = "has_login_error" then
    "I see you're getting a login error - that's frustrating! Don't worry, we can fix this with a simple 6-step process.\n\nFirst, let's check if your email is in the system. Go to the <a href=\"https://ce.uhcc.hawaii.edu/portal/logon.do?method=load\" target=\"_blank\">portal login page</a> and look for the RIGHT SIDE where it says \"I am a new user\" - click there and enter your email.\n\nWhat happens when you do that?"
  else if state = "checking_email_validation" then
    "Perfect! You're testing your email in the \"I am a new user\" section.\n\nRemember, we want to see a validation error here - that means your email IS in the system. If it just asks for contact info, your email isn't registered.\n\nWhat message appears after you enter your email?"
  else if state = "email_validated_ready_for_username" then
    "🎉 **EXCELLENT!** That validation error is exactly what we wanted! Your email IS in the system.\n\nNow for Step 2: Go back to the LEFT side (\"I am an existing user\") and click \"Forgot Username\". Enter that same email address. The system will send your username to your email.\n\nHave you tried that yet?"
  else if state = "username_email_sent" then
    "Great! Step 3 now: Check your email inbox and spam folder for the username email from UHCC.\n\nOnce you find your username in that email, we'll move to Step 4 (password reset).\n\nDid you find the email with your username?"
  else if state = "ready_for_password_reset" then
    "Perfect! Now for Step 4: Go to the \"Forgot Password\" page and enter the username you just got from your email.\n\nThis will send a password reset link to your email for Step 5.\n\nHow did that go?"
  else if state = "password_reset_in_progress" then
    "Almost there! Step 5: Check your email (and spam folder) for the password reset email from UHCC.\n\nClick the reset link in that email and set your new password. After that, you can log in on the LEFT side (\"I am an existing user\") of the <a href=\"https://ce.uhcc.hawaii.edu/portal/logon.do?method=load\" target=\"_blank\">portal login page</a> with your username and new password.\n\nWere you able to reset your password?"
  else if state = "restart_needed" then
    "No problem! Let's start fresh with a different email address.\n\nSometimes the email you think you used isn't the one in the system. Let's go back to Step 1 and try a different email.\n\nGo to the <a href=\"https://ce.uhcc.hawaii.edu/portal/logon.do?method=load\" target=\"_blank\">portal login page</a> and use the \"I am a new user\" section on the RIGHT SIDE to test a different email address.\n\nWhat other email addresses might you have used when you first registered?"
  else if state = "process_complete" then
    "🎉 **SUCCESS!** You're all set! You can now log in anytime using:\n• Username: (from the first email)\n• Password: (your new password)\n\nJust use the LEFT side (\"I am an existing user\") of the <a href=\"https://ce.uhcc.hawaii.edu/portal/logon.do?method=load\" target=\"_blank\">portal login page</a>.\n\nIs there anything else I can help you with?"
  else
    "Hey! I'm here to help with UHCC portal login issues. What's happening when you try to log in?\n\nIf this is about something other than portal login problems, please contact:\n\n" ++ contactInfoFormatted

/-- The page-context analysis of the chat POST handler (part_001 lines
568 to 602): when the scraped record has non-empty content, an ordered
keyword chain picks a context sentence; a record with empty (falsy)
content yields the degraded context sentence instead. -/
def buildPageContext (pageData : ScrapedContent) : String :=
  if pageData.content = "" then "I couldn't access that page, but I can still help! "
  else
    let content := toLowerStr pageData.content
    if containsSubstr content "validation error" && containsSubstr content "invalid email" then
      "I can see you're getting the validation error about invalid email/password. "
    else if containsSubstr content "existing student record" then
      "Perfect! I can see the page is telling you there's an existing student record - that's exactly what we want! "
    else if containsSubstr content "forgot" && containsSubstr content "username" then
      "Good, you're on the forgot username page. "
    else if containsSubstr content "forgot" && containsSubstr content "password" then
      "Great, you're on the forgot password page. "
    else if containsSubstr content "reset" && containsSubstr content "password" then
      "I see you're on the password reset page. "
    else if containsSubstr content "login" || containsSubstr content "logon" then
      "I can see the login page. "
    else if containsSubstr content "contact information" then
      "I see the contact information form - this means your email isn't in the system yet. "
    else ""

/-- The canned body of the 500 response the catch branch of the chat POST
handler returns. -/
def cannedErrorMessage : String :=
  "I'm having some technical trouble right now. For immediate help with your login issue, please contact:\n\n📞 808-845-9129\n📧 help@hawaii.edu\n🕒 Mon-Fri 8AM-4:30PM\n\nThey'll be able to help you get back into your account right away!"

/-- External effects one chat POST invocation can observe.  `urlMatch` is
the outcome of `message.match(urlPattern)` (the regexp engine is treated
as an opaque primitive); `groqMain` is the `getGroqResponse` completion,
an `Except.error` modelling a thrown service failure and `none` a null
completion; `outcomes` is the value `generateAIExpectedOutcomes` resolves
to — that function wraps its whole body in try/catch with a total
rule-based fallback, so it never throws and only its value reaches the
response; `saveThrows` tells whether the store write inside
`saveConversation` throws, in which case `saveConversation` logs and
rethrows to the handler. -/
structure ChatWorld where
  scrape : ScrapeWorld
  urlMatch : Option String
  groqMain : Except Unit (Option String)
  outcomes : JsonVal
  saveThrows : Bool

/-- Observable response of one chat POST invocation: a 200 JSON body with
the composed message and the spread outcome fields, or the 500 body the
catch branch produces. -/
inductive ChatResp where
  | ok : String → JsonVal → ChatResp
  | err500 : String → ChatResp

/-- The chat route POST handler (part_001 lines 548 to 721): empty or
missing message short-circuits to the initial canned reply; otherwise the
state is classified, a contained URL is scraped for page context, the LLM
composes the reply (falling back to the canned state reply when empty),
and the turn is persisted.  Any exception inside the try block — a thrown
LLM call or the rethrow out of `saveConversation` — lands in the catch
branch, which returns the canned 500 response. -/
def chatPOST (w : ChatWorld) (message : Option String) (messages : List ChatMessage) : ChatResp :=
  match message with
  | none => .ok (getResponseForState "initial") (.jobj [("showInput", .jbool true)])
  | some msg =>
    if String.mk (jsTrim msg.toList) = "" then
      .ok (getResponseForState "initial") (.jobj [("showInput", .jbool true)])
    else
      let currentState := getUserState messages
      let baseResponse := getResponseForState currentState
      let _pageContext : String :=
        match w.urlMatch with
        | none => ""
        | some u => buildPageContext (scrapeUrl w.scrape u).1
      match w.groqMain with
      | .error _ => .err500 cannedErrorMessage
      | .ok aiResponse =>
        let finalResponse :=
          match aiResponse with
          | some s => if s = "" then baseResponse else s
          | none => baseResponse
        if w.saveThrows then .err500 cannedErrorMessage
        else .ok finalResponse w.outcomes

/-- World in which the conversation save throws. -/
def c2World : ChatWorld :=
  { scrape := ⟨fun _ => none, .error (), 0⟩, urlMatch := none,
    groqMain := .ok (some "Here is the next step."), outcomes := .jobj [],
    saveThrows := true }

/-- Counterexample to C2 as stated: with the composed reply available
in-memory, a failing store write makes the handler return the canned 500
error response, not the composed reply — `saveConversation` logs the
failure and rethrows, and the rethrow lands in the catch branch of the
handler. -/
theorem c2_save_failure_counterexample :
    chatPOST c2World (some "hello") [] = ChatResp.err500 cannedErrorMessage := rfl

/-- C2 amended: when the store write of the conversation throws, the chat
POST handler returns the 500 response with the canned contact message for
every history and composed reply; the composed turn is lost for the
caller. -/
theorem c2_save_failure_returns_500 (w : ChatWorld) (msg : String)
    (messages : List ChatMessage) (r : Option String)
    (hmsg : String.mk (jsTrim msg.toList) ≠ "")
    (hgroq : w.groqMain = .ok r)
    (hsave : w.saveThrows = true) :
    chatPOST w (some msg) messages = ChatResp.err500 cannedErrorMessage := by
  simp only [chatPOST, if_neg hmsg, hgroq, hsave, if_true]

/-- Witness for the amended C2 at a concrete world and message. -/
theorem c2_save_failure_returns_500_witness :
    chatPOST c2World (some "i need help") [] = ChatResp.err500 cannedErrorMessage :=
  c2_save_failure_returns_500 c2World "i need help" []
    (some "Here is the next step.") (by decide) rfl rfl

/-- C8: when the fetch for the matched URL throws and the cache has no
entry, `scrapeUrl` returns the error record — every text field empty and
the error field exactly "Failed to scrape URL" — the page-context analysis
degrades to the fixed sentence instead of failing, and the handler still
completes the turn with the composed reply. -/
theorem c8_fetch_failure_degrades (w : ChatWorld) (url msg reply : String)
    (messages : List ChatMessage)
    (_hurl : w.urlMatch = some url)
    (hmiss : w.scrape.store (getCacheKey url) = none)
    (hfetch : w.scrape.fetch = .error ())
    (hmsg : String.mk (jsTrim msg.toList) ≠ "")
    (hgroq : w.groqMain = .ok (some reply))
    (hreply : reply ≠ "")
    (hsave : w.saveThrows = false) :
    (scrapeUrl w.scrape url).1 = errorScrapeResult url ∧
    (scrapeUrl w.scrape url).1.content = "" ∧
    (scrapeUrl w.scrape url).1.title = "" ∧
    (scrapeUrl w.scrape url).1.metaDescription = "" ∧
    (scrapeUrl w.scrape url).1.headings = ⟨"", ""⟩ ∧
    (scrapeUrl w.scrape url).1.error = some "Failed to scrape URL" ∧
    buildPageContext (scrapeUrl w.scrape url).1
      = "I couldn't access that page, but I can still help! " ∧
    chatPOST w (some msg) messages = ChatResp.ok reply w.outcomes := by
  have hscrape : scrapeUrl w.scrape url = (errorScrapeResult url, w.scrape.store) := by
    simp only [scrapeUrl, getCachedContent_none w.scrape.store url hmiss, hfetch]
  rw [hscrape]
  refine ⟨rfl, rfl, rfl, rfl, rfl, rfl, rfl, ?_⟩
  simp only [chatPOST, if_neg hmsg, hgroq, hsave, if_neg hreply]
  simp

/-- World for the C8 witness: empty cache, failing fetch, healthy LLM and
store write. -/
def c8World : ChatWorld :=
  { scrape := ⟨fun _ => none, .error (), 0⟩,
    urlMatch := some "http://dead.example",
    groqMain := .ok (some "No worries, let us continue with step one."),
    outcomes := .jobj [("showInput", .jbool true)], saveThrows := false }

/-- Witness for C8 at a concrete world, URL and reply. -/
theorem c8_fetch_failure_degrades_witness :
    (scrapeUrl c8World.scrape "http://dead.example").1
      = errorScrapeResult "http://dead.example" ∧
    (scrapeUrl c8World.scrape "http://dead.example").1.content = "" ∧
    (scrapeUrl c8World.scrape "http://dead.example").1.title = "" ∧
    (scrapeUrl c8World.scrape "http://dead.example").1.metaDescription = "" ∧
    (scrapeUrl c8World.scrape "http://dead.example").1.headings = ⟨"", ""⟩ ∧
    (scrapeUrl c8World.scrape "http://dead.example").1.error
      = some "Failed to scrape URL" ∧
    buildPageContext (scrapeUrl c8World.scrape "http://dead.example").1
      = "I couldn't access that page, but I can still help! " ∧
    chatPOST c8World (some "see http://dead.example please") []
      = ChatResp.ok "No worries, let us continue with step one." c8World.outcomes :=
  c8_fetch_failure_degrades c8World "http://dead.example"
    "see http://dead.example please" "No worries, let us continue with step one." []
    rfl rfl rfl (by decide) rfl (by decide) rfl

/-- One row of the analyticsSummary table.  The average column is a float
in the store; it is modelled as a rational, which coincides with float
arithmetic on the small integer-valued instances used below. -/
structure DailySummary where
  totalSessions : Nat
  totalMessages : Nat
  avgMessagesPerSession : ℚ
  uniqueSessions : Nat
  completedSessions : Nat
  quickActionClicks : List (String × Nat)

/-- The fields of an incoming analytics event the summary update reads. -/
structure AnalyticsEvent where
  eventType : String
  quickActionType : Option String

/-- The summary row the handler creates for a day with no row yet. -/
def freshSummary : DailySummary := ⟨0, 0, 0, 0, 0, []⟩

/-- JavaScript object read `clicks[key] || 0` over the click-tally map,
modelled as an association list in property order. -/
def lookupClick : List (String × Nat) → String → Nat
  | [], _ => 0
  | (k, v) :: rest, key => if k = key then v else lookupClick rest key

/-- JavaScript assignment `clicks[key] = n`: an existing property keeps
its slot, a new property is appended. -/
def setClick : List (String × Nat) → String → Nat → List (String × Nat)
  | [], key, n => [(key, n)]
  | (k, v) :: rest, key, n =>
    if k = key then (key, n) :: rest else (k, v) :: setClick rest key n

/-- JavaScript truthiness of `event.quickActionType`. -/
def quickActionTruthy (e : AnalyticsEvent) : Bool :=
  match e.quickActionType with
  | some q => q ≠ ""
  | none => false

/-- The summary mutation of the analytics POST handler (analytics route
lines 47 to 110) for one event, from the stored row for the day (`none`
when the day has no row yet, in which case the handler first creates the
zero row).  The branch on the event type builds the update object; the
average block then re-reads the summary row, but the update carrying the
increments has not been applied yet at that point, so the re-read returns
the same values as the first read; finally the update object is applied. -/
def analyticsPost (stored : Option DailySummary) (event : AnalyticsEvent) : DailySummary :=
  let summary := match stored with | some s => s | none => freshSummary
  let incSessions := event.eventType = "session_start"
  let incMessages := event.eventType = "message_sent" || event.eventType = "message_received"
  let clicksUpdate : Option (List (String × Nat)) :=
    if event.eventType = "quick_action_clicked" && quickActionTruthy event then
      match event.quickActionType with
      | some q => some (setClick summary.quickActionClicks q
          (lookupClick summary.quickActionClicks q + 1))
      | none => none
    else none
  let incCompleted := event.eventType = "session_completed"
  let avgUpdate : Option ℚ :=
    if incMessages || incSessions then
      if summary.totalSessions > 0 then
        some ((summary.totalMessages : ℚ) / (summary.totalSessions : ℚ))
      else none
    else none
  { summary with
    totalSessions := summary.totalSessions + (if incSessions then 1 else 0),
    uniqueSessions := summary.uniqueSessions + (if incSessions then 1 else 0),
    totalMessages := summary.totalMessages + (if incMessages then 1 else 0),
    completedSessions := summary.completedSessions + (if incCompleted then 1 else 0),
    quickActionClicks :=
      match clicksUpdate with | some c => c | none => summary.quickActionClicks,
    avgMessagesPerSession :=
      match avgUpdate with | some a => a | none => summary.avgMessagesPerSession }

/-- Summary after a `session_start` followed by a `message_sent` on the
same fresh day. -/
def c1AfterTwo : DailySummary :=
  analyticsPost (some (analyticsPost none ⟨"session_start", none⟩)) ⟨"message_sent", none⟩

/-- Counterexample to C1 as stated: after the reachable two-event run
`session_start; message_sent`, the stored counters read 1 and 1 but the
stored average is 0, not 1 — the handler computed it from the row as read
before the increment was applied. -/
theorem c1_avg_recompute_counterexample :
    c1AfterTwo.totalMessages = 1 ∧ c1AfterTwo.totalSessions = 1 ∧
    c1AfterTwo.avgMessagesPerSession
      ≠ (c1AfterTwo.totalMessages : ℚ) / (c1AfterTwo.totalSessions : ℚ) := by
  refine ⟨rfl, rfl, ?_⟩
  simp [c1AfterTwo, analyticsPost, freshSummary]

/-- C1 amended: for an event that increments `totalMessages` or
`totalSessions`, when the stored row already has a positive session count,
the stored average after the event equals the quotient of the counters as
they stood before the increments — the average lags the counters by one
event. -/
theorem c1_avg_from_preread (stored : DailySummary) (event : AnalyticsEvent)
    (hinc : event.eventType = "session_start" ∨ event.eventType = "message_sent" ∨
      event.eventType = "message_received")
    (hpos : 0 < stored.totalSessions) :
    (analyticsPost (some stored) event).avgMessagesPerSession
      = (stored.totalMessages : ℚ) / (stored.totalSessions : ℚ) := by
  rcases hinc with h | h | h <;> simp [analyticsPost, h, hpos]

/-- Witness for the amended C1: a row with one session and zero messages
receives a `message_sent`; the stored average becomes the pre-increment
quotient. -/
theorem c1_avg_from_preread_witness :
    (analyticsPost (some ⟨1, 0, 0, 1, 0, []⟩) ⟨"message_sent", none⟩).avgMessagesPerSession
      = ((0 : Nat) : ℚ) / ((1 : Nat) : ℚ) :=
  c1_avg_from_preread ⟨1, 0, 0, 1, 0, []⟩ ⟨"message_sent", none⟩
    (Or.inr (Or.inl rfl)) (by decide)

/-- Reading the key just set returns the written count. -/
theorem lookupClick_setClick_self (l : List (String × Nat)) (key : String) (n : Nat) :
    lookupClick (setClick l key n) key = n := by
  induction l with
  | nil => simp [setClick, lookupClick]
  | cons p t ih =>
    obtain ⟨k, v⟩ := p
    by_cases h : k = key
    · simp [setClick, lookupClick, h]
    · simp [setClick, lookupClick, h, ih]

/-- Setting one key leaves every other key unchanged. -/
theorem lookupClick_setClick_other (l : List (String × Nat)) (key k2 : String) (n : Nat)
    (hne : k2 ≠ key) :
    lookupClick (setClick l key n) k2 = lookupClick l k2 := by
  induction l with
  | nil => simp [setClick, lookupClick, Ne.symm hne]
  | cons p t ih =>
    obtain ⟨k, v⟩ := p
    by_cases h : k = key
    · subst h
      simp [setClick, lookupClick, Ne.symm hne]
    · simp [setClick, lookupClick, h, ih]

/-- C9: a `quick_action_clicked` event carrying a (truthy) action label
increments the tally stored under that label by exactly one, an absent
label counting as zero, and leaves the tally under every other label
unchanged. -/
theorem c9_quick_action_click (stored : DailySummary) (qat : String) (hq : qat ≠ "") :
    lookupClick (analyticsPost (some stored)
        ⟨"quick_action_clicked", some qat⟩).quickActionClicks qat
      = lookupClick stored.quickActionClicks qat + 1 ∧
    ∀ k, k ≠ qat →
      lookupClick (analyticsPost (some stored)
          ⟨"quick_action_clicked", some qat⟩).quickActionClicks k
        = lookupClick stored.quickActionClicks k := by
  constructor
  · simp [analyticsPost, quickActionTruthy, hq, lookupClick_setClick_self]
  · intro k hk
    simp [analyticsPost, quickActionTruthy, hq, lookupClick_setClick_other _ _ _ _ hk]

/-- Witness for C9: clicking "I forgot my password" bumps its tally from
3 to 4 and leaves the tally of "Other" at 7. -/
theorem c9_quick_action_click_witness :
    lookupClick (analyticsPost
        (some ⟨2, 5, 0, 2, 1, [("I forgot my password", 3), ("Other", 7)]⟩)
        ⟨"quick_action_clicked", some "I forgot my password"⟩).quickActionClicks
      "I forgot my password" = 4 ∧
    lookupClick (analyticsPost
        (some ⟨2, 5, 0, 2, 1, [("I forgot my password", 3), ("Other", 7)]⟩)
        ⟨"quick_action_clicked", some "I forgot my password"⟩).quickActionClicks
      "Other" = 7 :=
  ⟨(c9_quick_action_click ⟨2, 5, 0, 2, 1, [("I forgot my password", 3), ("Other", 7)]⟩
      "I forgot my password" (by decide)).1.trans (by decide),
   ((c9_quick_action_click ⟨2, 5, 0, 2, 1, [("I forgot my password", 3), ("Other", 7)]⟩
      "I forgot my password" (by decide)).2 "Other" (by decide)).trans (by decide)⟩
